import Mathlib

set_option maxHeartbeats 1000000

/-!
Shallow embedding of the train-finder program (`main.go`): the `FindTrains`
query function together with its collaborators `readDataFromJSON` and
`sortTrainsByAscending`, and theorems about them.
-/

namespace TrainFinder

open List

/-! Constants from the `const` block of main.go. -/

def priceCriteria : String := "price"

def arrivalTimeCriteria : String := "arrival-time"

def departureTimeCriteria : String := "departure-time"

def numOfReturnTrains : Nat := 3

def minIDNumber : Int := 1

def minLen : Nat := 1

/-- Train record (`type Train struct` in main.go).  Go `float32` prices are
modelled as rationals (Go float comparison on non-NaN values agrees with the
rational order) and `time.Time` values as nonnegative instants on which
`Before` is `<`. -/
structure Train where
  trainID : Int
  departureStationID : Int
  arrivalStationID : Int
  price : ℚ
  arrivalTime : ℕ
  departureTime : ℕ
deriving DecidableEq

/-- Decimal digit value of a character, `none` for a non-digit. -/
def digitVal (c : Char) : Option Nat :=
  if '0' ≤ c ∧ c ≤ '9' then some (c.toNat - '0'.toNat) else none

/-- Accumulating base-10 evaluation of a digit string; fails on a non-digit. -/
def digitsVal : List Char → Nat → Option Nat
  | [], acc => some acc
  | c :: cs, acc =>
    match digitVal c with
    | some d => digitsVal cs (acc * 10 + d)
    | none => none

/-- Value of a nonempty all-digit character list, most significant first. -/
def parseDigits (cs : List Char) : Option Nat :=
  match cs with
  | [] => none
  | _ => digitsVal cs 0

/-- Model of Go `strconv.Atoi` (= `ParseInt(s, 10, 0)` with 64-bit `int`):
an optional single sign followed by one or more decimal digits; any other
character, an empty digit part, or a value outside `[-2^63, 2^63-1]` is an
error, modelled as `none`. -/
def goAtoi (s : String) : Option Int :=
  match s.data with
  | '+' :: rest => (parseDigits rest).bind fun n =>
      if (n : Int) ≤ 2 ^ 63 - 1 then some (n : Int) else none
  | '-' :: rest => (parseDigits rest).bind fun n =>
      if (n : Int) ≤ 2 ^ 63 then some (-(n : Int)) else none
  | cs => (parseDigits cs).bind fun n =>
      if (n : Int) ≤ 2 ^ 63 - 1 then some (n : Int) else none

/-- The five typed errors of the `var` block of main.go. -/
inductive FindError where
  | emptyDepStation
  | emptyArrStation
  | badDepStation
  | badArrStation
  | unsupportedCriteria
deriving DecidableEq

/-- Key-membership test in the `criteriaOfSort` map, whose three keys are
the three criteria strings (the `_, ok := criteriaOfSort[criteria]` check). -/
def criteriaOfSortContains (c : String) : Bool :=
  c == priceCriteria || c == arrivalTimeCriteria || c == departureTimeCriteria

/-- Model of Go `sort.SliceStable(trains, less)`: the stable sort that puts
`a` no later than `b` exactly when `less b a` is false.  (`sort.SliceStable`
is specified as a stable sort with respect to `less`; for the
strict-weak-order comparators used here every stable sort has this output.) -/
def sliceStable (less : Train → Train → Bool) (trains : List Train) : List Train :=
  trains.insertionSort fun a b => less b a = false

/-- The comparator of the `price` case of `sortTrainsByAscending`. -/
def priceLess (a b : Train) : Bool := decide (a.price < b.price)

/-- The comparator of the `departure-time` case (Go `DepartureTime.Before`). -/
def departureTimeLess (a b : Train) : Bool := decide (a.departureTime < b.departureTime)

/-- The comparator of the `arrival-time` case (Go `ArrivalTime.Before`). -/
def arrivalTimeLess (a b : Train) : Bool := decide (a.arrivalTime < b.arrivalTime)

/-- main.go `sortTrainsByAscending`: `switch` on the criteria; a criteria
matching no case leaves the slice unchanged. -/
def sortTrainsByAscending (trains : List Train) (criteria : String) : List Train :=
  if criteria = priceCriteria then sliceStable priceLess trains
  else if criteria = departureTimeCriteria then sliceStable departureTimeLess trains
  else if criteria = arrivalTimeCriteria then sliceStable arrivalTimeLess trains
  else trains

/-- main.go `readDataFromJSON`: the external dataset source, `none` when the
file cannot be read.  On an open/read/unmarshal failure the error is printed
or discarded, never returned, and the freshly allocated empty slice is
returned unchanged, so a failed load yields `[]`. -/
def readDataFromJSON (source : Option (List Train)) : List Train :=
  match source with
  | some data => data
  | none => []

/-- The filter predicate of the `for` loop in `FindTrains`:
`v.DepartureStationID == departureStationID && v.ArrivalStationID == arrivalStationID`. -/
def stationsMatch (depID arrID : Int) (v : Train) : Bool :=
  decide (v.departureStationID = depID) && decide (v.arrivalStationID = arrID)

/-- The result-candidate set built by the `for` loop of `FindTrains`:
the dataset records matching both stations, in dataset order. -/
def candidateTrains (data : List Train) (depID arrID : Int) : List Train :=
  data.filter (stationsMatch depID arrID)

/-- main.go `FindTrains`, instrumented: the second component records whether
control reached the `readDataFromJSON` call (the function's only effect).
A `none` first component models Go's `nil` result slice. -/
def FindTrainsWithRead (source : Option (List Train))
    (departureStation arrivalStation criteria : String) :
    (Option (List Train) × Option FindError) × Bool :=
  if departureStation.length < minLen then
    ((none, some FindError.emptyDepStation), false)
  else if arrivalStation.length < minLen then
    ((none, some FindError.emptyArrStation), false)
  else
    match goAtoi departureStation with
    | none => ((none, some FindError.badDepStation), false)
    | some departureStationID =>
      if departureStationID < minIDNumber then
        ((none, some FindError.badDepStation), false)
      else
        match goAtoi arrivalStation with
        | none => ((none, some FindError.badArrStation), false)
        | some arrivalStationID =>
          if arrivalStationID < minIDNumber then
            ((none, some FindError.badArrStation), false)
          else if ¬ criteriaOfSortContains criteria then
            ((none, some FindError.unsupportedCriteria), false)
          else
            let data := readDataFromJSON source
            let trains := candidateTrains data departureStationID arrivalStationID
            if trains.length < minLen then
              ((none, none), true)
            else
              let sorted := sortTrainsByAscending trains criteria
              if sorted.length < numOfReturnTrains then
                ((some sorted, none), true)
              else
                ((some (sorted.take numOfReturnTrains), none), true)

/-- main.go `FindTrains`: result slice (`none` = Go `nil`) and error. -/
def FindTrains (source : Option (List Train))
    (departureStation arrivalStation criteria : String) :
    Option (List Train) × Option FindError :=
  (FindTrainsWithRead source departureStation arrivalStation criteria).1

/-- The joint condition of validation checks 3 and 4: the station text
parses (per `goAtoi`) to an integer of at least `minIDNumber`. -/
def validStation (s : String) : Bool :=
  match goAtoi s with
  | some n => decide (minIDNumber ≤ n)
  | none => false

/-! Helper lemmas. -/

theorem goAtoi_of_eq_empty {s : String} (h : s = "") : goAtoi s = none := by
  subst h; rfl

theorem length_lt_minLen_iff {s : String} : s.length < minLen ↔ s = "" := by
  rw [minLen, Nat.lt_one_iff, String.ext_iff]
  cases s with
  | mk data => simp [String.length]

theorem not_length_lt_minLen_of_goAtoi {s : String} {n : Int}
    (h : goAtoi s = some n) : ¬ s.length < minLen := by
  intro hl
  rw [length_lt_minLen_iff] at hl
  rw [goAtoi_of_eq_empty hl] at h
  exact Option.noConfusion h

/-- On a fully valid input, `FindTrainsWithRead` reduces to its
filter/sort/truncate tail. -/
theorem findTrainsWithRead_valid (source : Option (List Train))
    (dep arr crit : String) (depID arrID : Int)
    (hdep : goAtoi dep = some depID) (hdepGe : minIDNumber ≤ depID)
    (harr : goAtoi arr = some arrID) (harrGe : minIDNumber ≤ arrID)
    (hcrit : criteriaOfSortContains crit = true) :
    FindTrainsWithRead source dep arr crit =
      (let trains := candidateTrains (readDataFromJSON source) depID arrID
       if trains.length < minLen then ((none, none), true)
       else
         let sorted := sortTrainsByAscending trains crit
         if sorted.length < numOfReturnTrains then ((some sorted, none), true)
         else ((some (sorted.take numOfReturnTrains), none), true)) := by
  rw [FindTrainsWithRead, if_neg (not_length_lt_minLen_of_goAtoi hdep),
    if_neg (not_length_lt_minLen_of_goAtoi harr), hdep]
  simp only [if_neg (not_lt.mpr hdepGe), harr, if_neg (not_lt.mpr harrGe),
    hcrit, not_true, if_neg, Bool.true_eq_false, not_false_eq_true, ite_false]

/-- The output of the modelled `sort.SliceStable` with the comparator
`key a < key b` is non-strictly ascending in `key`. -/
theorem sliceStable_pairwise {α : Type} [LinearOrder α] (key : Train → α) (l : List Train) :
    (sliceStable (fun a b => decide (key a < key b)) l).Pairwise
      (fun a b => key a ≤ key b) := by
  have htot : IsTotal Train (fun a b => decide (key b < key a) = false) := by
    constructor
    intro a b
    simp only [decide_eq_false_iff_not, not_lt]
    exact le_total (key a) (key b)
  have htrans : IsTrans Train (fun a b => decide (key b < key a) = false) := by
    constructor
    intro a b c hab hbc
    simp only [decide_eq_false_iff_not, not_lt] at hab hbc ⊢
    exact le_trans hab hbc
  have h := List.sorted_insertionSort (fun a b : Train => decide (key b < key a) = false) l
  refine List.Pairwise.imp ?_ h
  intro a b hab
  simpa only [decide_eq_false_iff_not, not_lt] using hab

/-- Stability of the modelled `sort.SliceStable`: restricted to any single
key value, the sorted list is exactly the input restricted to that value. -/
theorem sliceStable_filter_key {α : Type} [LinearOrder α]
    (key : Train → α) (l : List Train) (k : α) :
    (sliceStable (fun a b => decide (key a < key b)) l).filter
        (fun t => decide (key t = k)) =
      l.filter (fun t => decide (key t = k)) := by
  show (l.insertionSort (fun a b => decide (key b < key a) = false)).filter
        (fun t => decide (key t = k)) =
      l.filter (fun t => decide (key t = k))
  have hkey : ∀ a ∈ l.filter (fun t => decide (key t = k)), key a = k := by
    intro a ha
    have h1 := List.of_mem_filter ha
    simpa using h1
  have hpair : (l.filter (fun t => decide (key t = k))).Pairwise
      (fun a b => decide (key b < key a) = false) := by
    refine List.pairwise_of_forall_mem_list ?_
    intro a ha b hb
    simp only [decide_eq_false_iff_not, not_lt, hkey a ha, hkey b hb, le_refl]
  have hsub : l.filter (fun t => decide (key t = k)) <+
      l.insertionSort (fun a b => decide (key b < key a) = false) :=
    List.sublist_insertionSort hpair (List.filter_sublist l)
  have hself : (l.filter (fun t => decide (key t = k))).filter
      (fun t => decide (key t = k)) = l.filter (fun t => decide (key t = k)) := by
    rw [List.filter_eq_self]
    intro a ha
    have h2 := List.of_mem_filter ha
    exact h2
  have hsub2 : l.filter (fun t => decide (key t = k)) <+
      (l.insertionSort (fun a b => decide (key b < key a) = false)).filter
        (fun t => decide (key t = k)) := by
    rw [← hself]
    exact hsub.filter _
  have hperm : ((l.insertionSort
        (fun a b => decide (key b < key a) = false)).filter
          (fun t => decide (key t = k))).Perm
      (l.filter (fun t => decide (key t = k))) :=
    (List.perm_insertionSort _ l).filter _
  exact (hsub2.eq_of_length hperm.length_eq.symm).symm

theorem length_sortTrainsByAscending (l : List Train) (c : String) :
    (sortTrainsByAscending l c).length = l.length := by
  rw [sortTrainsByAscending]
  split_ifs <;> simp [sliceStable, List.length_insertionSort]

/-- On a valid input with a `some` result, the result is the sorted match
list, or its 3-element prefix when more than 3 records match. -/
theorem findTrains_result_eq (source : Option (List Train))
    (dep arr crit : String) (depID arrID : Int) (l : List Train)
    (hdep : goAtoi dep = some depID) (hdepGe : minIDNumber ≤ depID)
    (harr : goAtoi arr = some arrID) (harrGe : minIDNumber ≤ arrID)
    (hcrit : criteriaOfSortContains crit = true)
    (hres : (FindTrains source dep arr crit).1 = some l) :
    l = sortTrainsByAscending
          (candidateTrains (readDataFromJSON source) depID arrID) crit ∨
      l = (sortTrainsByAscending
          (candidateTrains (readDataFromJSON source) depID arrID) crit).take
            numOfReturnTrains := by
  rw [FindTrains,
    findTrainsWithRead_valid source dep arr crit depID arrID hdep hdepGe harr harrGe hcrit]
    at hres
  simp only at hres
  split at hres
  · exact absurd hres (by simp)
  · split at hres
    · left
      exact (Option.some_injective _ hres).symm
    · right
      exact (Option.some_injective _ hres).symm

theorem sortTrains_price_pairwise (trains : List Train) :
    (sortTrainsByAscending trains priceCriteria).Pairwise
      (fun a b => a.price ≤ b.price) := by
  rw [sortTrainsByAscending, if_pos rfl]
  exact sliceStable_pairwise Train.price trains

theorem sortTrains_dep_pairwise (trains : List Train) :
    (sortTrainsByAscending trains departureTimeCriteria).Pairwise
      (fun a b => a.departureTime ≤ b.departureTime) := by
  rw [sortTrainsByAscending, if_neg (by decide), if_pos rfl]
  exact sliceStable_pairwise Train.departureTime trains

theorem sortTrains_arr_pairwise (trains : List Train) :
    (sortTrainsByAscending trains arrivalTimeCriteria).Pairwise
      (fun a b => a.arrivalTime ≤ b.arrivalTime) := by
  rw [sortTrainsByAscending, if_neg (by decide), if_neg (by decide), if_pos rfl]
  exact sliceStable_pairwise Train.arrivalTime trains

/-- Restricting the sorted-and-possibly-truncated result to one key value
gives a subsequence of the dataset restricted to that key value. -/
theorem result_filter_key_sublist {α : Type} [LinearOrder α] (key : Train → α)
    (data : List Train) (depID arrID : Int) (l : List Train)
    (hl : l = sliceStable (fun a b => decide (key a < key b))
            (candidateTrains data depID arrID) ∨
          l = (sliceStable (fun a b => decide (key a < key b))
            (candidateTrains data depID arrID)).take numOfReturnTrains)
    (k : α) :
    l.filter (fun t => decide (key t = k)) <+
      data.filter (fun t => decide (key t = k)) := by
  have hstab := sliceStable_filter_key key (candidateTrains data depID arrID) k
  have h0 : candidateTrains data depID arrID <+ data := List.filter_sublist data
  have hsub : (candidateTrains data depID arrID).filter
      (fun t => decide (key t = k)) <+ data.filter (fun t => decide (key t = k)) :=
    h0.filter _
  cases hl with
  | inl h =>
    rw [h, hstab]
    exact hsub
  | inr h =>
    rw [h]
    have htake : ((sliceStable (fun a b => decide (key a < key b))
        (candidateTrains data depID arrID)).take numOfReturnTrains).filter
          (fun t => decide (key t = k)) <+
        (sliceStable (fun a b => decide (key a < key b))
          (candidateTrains data depID arrID)).filter (fun t => decide (key t = k)) :=
      (List.take_sublist _ _).filter _
    rw [hstab] at htake
    exact htake.trans hsub

/-! Claim theorems. -/

/-- Claim C1: `FindTrains` performs its validation checks in the fixed
order (1) departure text non-empty, (2) arrival text non-empty,
(3) departure text parses to an integer of at least 1, (4) arrival text
likewise, (5) criteria recognized; the first failing check determines the
outcome, a nil result with the corresponding error.  In particular the
departure check wins when both station texts are empty, and an unrecognized
criteria is reported only when both stations are valid. -/
theorem findTrains_validation_order (source : Option (List Train))
    (dep arr crit : String) :
    (dep = "" →
      FindTrains source dep arr crit = (none, some FindError.emptyDepStation)) ∧
    (dep ≠ "" → arr = "" →
      FindTrains source dep arr crit = (none, some FindError.emptyArrStation)) ∧
    (dep ≠ "" → arr ≠ "" → validStation dep = false →
      FindTrains source dep arr crit = (none, some FindError.badDepStation)) ∧
    (dep ≠ "" → arr ≠ "" → validStation dep = true → validStation arr = false →
      FindTrains source dep arr crit = (none, some FindError.badArrStation)) ∧
    (dep ≠ "" → arr ≠ "" → validStation dep = true → validStation arr = true →
      criteriaOfSortContains crit = false →
      FindTrains source dep arr crit =
        (none, some FindError.unsupportedCriteria)) := by
  refine ⟨?_, ?_, ?_, ?_, ?_⟩
  · intro h1
    rw [FindTrains, FindTrainsWithRead, if_pos (length_lt_minLen_iff.mpr h1)]
  · intro h1 h2
    rw [FindTrains, FindTrainsWithRead,
      if_neg (fun hl => h1 (length_lt_minLen_iff.mp hl)),
      if_pos (length_lt_minLen_iff.mpr h2)]
  · intro h1 h2 h3
    rw [FindTrains, FindTrainsWithRead,
      if_neg (fun hl => h1 (length_lt_minLen_iff.mp hl)),
      if_neg (fun hl => h2 (length_lt_minLen_iff.mp hl))]
    cases hg : goAtoi dep with
    | none => rfl
    | some n =>
      simp only [validStation, hg, decide_eq_false_iff_not, not_le] at h3
      simp only [if_pos h3]
  · intro h1 h2 h3 h4
    rw [FindTrains, FindTrainsWithRead,
      if_neg (fun hl => h1 (length_lt_minLen_iff.mp hl)),
      if_neg (fun hl => h2 (length_lt_minLen_iff.mp hl))]
    cases hg : goAtoi dep with
    | none => simp [validStation, hg] at h3
    | some n =>
      simp only [validStation, hg, decide_eq_true_eq] at h3
      simp only [if_neg (not_lt.mpr h3)]
      cases hga : goAtoi arr with
      | none => rfl
      | some m =>
        simp only [validStation, hga, decide_eq_false_iff_not, not_le] at h4
        simp only [if_pos h4]
  · intro h1 h2 h3 h4 h5
    rw [FindTrains, FindTrainsWithRead,
      if_neg (fun hl => h1 (length_lt_minLen_iff.mp hl)),
      if_neg (fun hl => h2 (length_lt_minLen_iff.mp hl))]
    cases hg : goAtoi dep with
    | none => simp [validStation, hg] at h3
    | some n =>
      simp only [validStation, hg, decide_eq_true_eq] at h3
      simp only [if_neg (not_lt.mpr h3)]
      cases hga : goAtoi arr with
      | none => simp [validStation, hga] at h4
      | some m =>
        simp only [validStation, hga, decide_eq_true_eq] at h4
        simp only [if_neg (not_lt.mpr h4), h5, Bool.false_eq_true,
          not_false_eq_true, if_pos]

/-- Claim C2: a dataset record enters the result-candidate set of
`FindTrains` exactly when its departure-station identifier equals the
parsed departure ID and its arrival-station identifier equals the parsed
arrival ID; matching a single station does not suffice. -/
theorem candidateTrains_mem_iff (data : List Train) (depID arrID : Int)
    (v : Train) :
    v ∈ candidateTrains data depID arrID ↔
      v ∈ data ∧ v.departureStationID = depID ∧ v.arrivalStationID = arrID := by
  simp [candidateTrains, stationsMatch, List.mem_filter, Bool.and_eq_true,
    decide_eq_true_eq, and_assoc]

/-- Claim C9: `FindTrains` is deterministic: with the same dataset source
and identical departure text, arrival text and criteria, two invocations
return the same (result, error) pair, tied records included — the embedded
function is pure, its only effect being the explicit `source` argument. -/
theorem findTrains_deterministic (source1 source2 : Option (List Train))
    (dep1 dep2 arr1 arr2 crit1 crit2 : String)
    (hs : source1 = source2) (hd : dep1 = dep2) (ha : arr1 = arr2)
    (hc : crit1 = crit2) :
    FindTrains source1 dep1 arr1 crit1 = FindTrains source2 dep2 arr2 crit2 := by
  rw [hs, hd, ha, hc]

/-- Claim C3: on a valid input whose filter step yields a match, the
returned sequence is sorted ascending in the field named by the criteria:
price for "price", departure time for "departure-time" and arrival time for
"arrival-time" (the chronological before-comparison is the order on the
modelled instants). -/
theorem findTrains_result_sorted (source : Option (List Train))
    (dep arr crit : String) (depID arrID : Int) (l : List Train)
    (hdep : goAtoi dep = some depID) (hdepGe : minIDNumber ≤ depID)
    (harr : goAtoi arr = some arrID) (harrGe : minIDNumber ≤ arrID)
    (hcrit : criteriaOfSortContains crit = true)
    (hres : (FindTrains source dep arr crit).1 = some l) :
    (crit = priceCriteria → l.Pairwise fun a b => a.price ≤ b.price) ∧
    (crit = departureTimeCriteria →
      l.Pairwise fun a b => a.departureTime ≤ b.departureTime) ∧
    (crit = arrivalTimeCriteria →
      l.Pairwise fun a b => a.arrivalTime ≤ b.arrivalTime) := by
  have hl := findTrains_result_eq source dep arr crit depID arrID l hdep hdepGe
    harr harrGe hcrit hres
  refine ⟨?_, ?_, ?_⟩
  · intro hc
    subst hc
    cases hl with
    | inl h => rw [h]; exact sortTrains_price_pairwise _
    | inr h => rw [h]; exact List.Pairwise.sublist (List.take_sublist _ _) (sortTrains_price_pairwise _)
  · intro hc
    subst hc
    cases hl with
    | inl h => rw [h]; exact sortTrains_dep_pairwise _
    | inr h => rw [h]; exact List.Pairwise.sublist (List.take_sublist _ _) (sortTrains_dep_pairwise _)
  · intro hc
    subst hc
    cases hl with
    | inl h => rw [h]; exact sortTrains_arr_pairwise _
    | inr h => rw [h]; exact List.Pairwise.sublist (List.take_sublist _ _) (sortTrains_arr_pairwise _)

/-- Claim C4: the sort used by `FindTrains` is stable — for the chosen
criteria, the result records carrying any fixed sort-key value form, in
result order, a subsequence of the dataset records with that key value, so
records with equal keys keep their relative order from the source dataset. -/
theorem findTrains_sort_stable (source : Option (List Train))
    (dep arr crit : String) (depID arrID : Int) (l : List Train)
    (hdep : goAtoi dep = some depID) (hdepGe : minIDNumber ≤ depID)
    (harr : goAtoi arr = some arrID) (harrGe : minIDNumber ≤ arrID)
    (hcrit : criteriaOfSortContains crit = true)
    (hres : (FindTrains source dep arr crit).1 = some l) :
    (crit = priceCriteria → ∀ k : ℚ,
      l.filter (fun t => decide (t.price = k)) <+
        (readDataFromJSON source).filter (fun t => decide (t.price = k))) ∧
    (crit = departureTimeCriteria → ∀ k : ℕ,
      l.filter (fun t => decide (t.departureTime = k)) <+
        (readDataFromJSON source).filter (fun t => decide (t.departureTime = k))) ∧
    (crit = arrivalTimeCriteria → ∀ k : ℕ,
      l.filter (fun t => decide (t.arrivalTime = k)) <+
        (readDataFromJSON source).filter (fun t => decide (t.arrivalTime = k))) := by
  have hl := findTrains_result_eq source dep arr crit depID arrID l hdep hdepGe
    harr harrGe hcrit hres
  refine ⟨?_, ?_, ?_⟩
  · intro hc
    subst hc
    rw [sortTrainsByAscending, if_pos rfl] at hl
    exact result_filter_key_sublist Train.price (readDataFromJSON source)
      depID arrID l hl
  · intro hc
    subst hc
    rw [sortTrainsByAscending, if_neg (by decide), if_pos rfl] at hl
    exact result_filter_key_sublist Train.departureTime (readDataFromJSON source)
      depID arrID l hl
  · intro hc
    subst hc
    rw [sortTrainsByAscending, if_neg (by decide), if_neg (by decide),
      if_pos rfl] at hl
    exact result_filter_key_sublist Train.arrivalTime (readDataFromJSON source)
      depID arrID l hl

/-- Claim C5: on a valid input the number of returned records is
min(3, number of matches); with at least 3 matches the result is exactly the
first 3 records of the sorted match list. -/
theorem findTrains_result_length (source : Option (List Train))
    (dep arr crit : String) (depID arrID : Int)
    (hdep : goAtoi dep = some depID) (hdepGe : minIDNumber ≤ depID)
    (harr : goAtoi arr = some arrID) (harrGe : minIDNumber ≤ arrID)
    (hcrit : criteriaOfSortContains crit = true) :
    ((FindTrains source dep arr crit).1.getD []).length =
      min numOfReturnTrains
        (candidateTrains (readDataFromJSON source) depID arrID).length ∧
    (numOfReturnTrains ≤
        (candidateTrains (readDataFromJSON source) depID arrID).length →
      (FindTrains source dep arr crit).1 =
        some ((sortTrainsByAscending
          (candidateTrains (readDataFromJSON source) depID arrID) crit).take
            numOfReturnTrains)) := by
  rw [FindTrains, findTrainsWithRead_valid source dep arr crit depID arrID hdep
    hdepGe harr harrGe hcrit]
  simp only []
  by_cases h0 : (candidateTrains (readDataFromJSON source) depID arrID).length <
      minLen
  · rw [if_pos h0]
    rw [minLen, Nat.lt_one_iff] at h0
    constructor
    · simp [h0, numOfReturnTrains]
    · intro h3
      rw [numOfReturnTrains] at h3
      omega
  · rw [if_neg h0]
    by_cases h3 : (sortTrainsByAscending
        (candidateTrains (readDataFromJSON source) depID arrID) crit).length <
          numOfReturnTrains
    · rw [if_pos h3]
      rw [length_sortTrainsByAscending] at h3
      constructor
      · simp only [Option.getD_some, length_sortTrainsByAscending]
        omega
      · intro hge
        omega
    · rw [if_neg h3]
      rw [length_sortTrainsByAscending] at h3
      constructor
      · simp only [Option.getD_some, List.length_take,
          length_sortTrainsByAscending]
      · intro hge
        rfl

/-- Claim C6: on a valid input the error component is always `none`, and
zero matching records yield exactly `(nil, nil)`: "no trains found" is an
error-free outcome, distinct from the validation failures of C1. -/
theorem findTrains_zero_matches_no_error (source : Option (List Train))
    (dep arr crit : String) (depID arrID : Int)
    (hdep : goAtoi dep = some depID) (hdepGe : minIDNumber ≤ depID)
    (harr : goAtoi arr = some arrID) (harrGe : minIDNumber ≤ arrID)
    (hcrit : criteriaOfSortContains crit = true) :
    (FindTrains source dep arr crit).2 = none ∧
    (candidateTrains (readDataFromJSON source) depID arrID = [] →
      FindTrains source dep arr crit = (none, none)) := by
  rw [FindTrains, findTrainsWithRead_valid source dep arr crit depID arrID hdep
    hdepGe harr harrGe hcrit]
  simp only []
  constructor
  · split_ifs <;> rfl
  · intro h0
    rw [h0]
    simp [minLen]

/-- Claim C7: a dataset source that cannot be read produces no distinct
typed error: on a valid input `FindTrains` behaves exactly as on an empty
dataset and returns `(nil, nil)`, indistinguishable from zero matches. -/
theorem findTrains_load_failure (dep arr crit : String) (depID arrID : Int)
    (hdep : goAtoi dep = some depID) (hdepGe : minIDNumber ≤ depID)
    (harr : goAtoi arr = some arrID) (harrGe : minIDNumber ≤ arrID)
    (hcrit : criteriaOfSortContains crit = true) :
    FindTrains none dep arr crit = FindTrains (some []) dep arr crit ∧
    FindTrains none dep arr crit = (none, none) := by
  rw [FindTrains, FindTrains,
    findTrainsWithRead_valid none dep arr crit depID arrID hdep hdepGe harr
      harrGe hcrit,
    findTrainsWithRead_valid (some []) dep arr crit depID arrID hdep hdepGe harr
      harrGe hcrit]
  constructor
  · rfl
  · simp [readDataFromJSON, candidateTrains, minLen]

/-- Claim C8: the dataset read — the only effect of `FindTrains` — happens
exactly when all five validation checks pass, so on any validation failure
the function returns before the dataset is loaded. -/
theorem findTrains_reads_iff_valid (source : Option (List Train))
    (dep arr crit : String) :
    (FindTrainsWithRead source dep arr crit).2 = true ↔
      dep ≠ "" ∧ arr ≠ "" ∧ validStation dep = true ∧ validStation arr = true ∧
        criteriaOfSortContains crit = true := by
  rw [FindTrainsWithRead]
  by_cases hd : dep.length < minLen
  · simp [hd, length_lt_minLen_iff.mp hd, minLen]
  · have hd2 : dep ≠ "" := fun h => hd (length_lt_minLen_iff.mpr h)
    by_cases ha : arr.length < minLen
    · rw [if_neg hd, if_pos ha]
      simp [length_lt_minLen_iff.mp ha]
    · have ha2 : arr ≠ "" := fun h => ha (length_lt_minLen_iff.mpr h)
      rw [if_neg hd, if_neg ha]
      cases hg : goAtoi dep with
      | none => simp [validStation, hg, hd2, ha2]
      | some n =>
        by_cases hn : n < minIDNumber
        · simp [if_pos hn, validStation, hg, hd2, ha2, not_le.mpr hn]
        · simp only [if_neg hn]
          cases hga : goAtoi arr with
          | none => simp [validStation, hg, hga, hd2, ha2]
          | some m =>
            by_cases hm : m < minIDNumber
            · simp [if_pos hm, validStation, hg, hga, hd2, ha2, not_le.mpr hm]
            · simp only [if_neg hm]
              by_cases hc : criteriaOfSortContains crit = true
              · simp only [hc, not_true_eq_false, ite_false]
                split_ifs <;>
                  simp [validStation, hg, hga, hd2, ha2, not_lt.mp hn,
                    not_lt.mp hm, hc]
              · simp [hc, validStation, hg, hga, hd2, ha2, not_lt.mp hn,
                  not_lt.mp hm]

/-- Claim C10: on a valid input with zero matches the result is exactly the
`nil` sequence, never a non-nil empty one; every `some` result that
`FindTrains` returns is nonempty. -/
theorem findTrains_nil_vs_empty (source : Option (List Train))
    (dep arr crit : String) (depID arrID : Int)
    (hdep : goAtoi dep = some depID) (hdepGe : minIDNumber ≤ depID)
    (harr : goAtoi arr = some arrID) (harrGe : minIDNumber ≤ arrID)
    (hcrit : criteriaOfSortContains crit = true) :
    (candidateTrains (readDataFromJSON source) depID arrID = [] →
      (FindTrains source dep arr crit).1 = none) ∧
    ∀ l : List Train, (FindTrains source dep arr crit).1 = some l → l ≠ [] := by
  rw [FindTrains, findTrainsWithRead_valid source dep arr crit depID arrID hdep
    hdepGe harr harrGe hcrit]
  simp only []
  constructor
  · intro h0
    rw [h0]
    simp [minLen]
  · intro l hl hnil
    subst hnil
    by_cases h0 : (candidateTrains (readDataFromJSON source) depID arrID).length <
        minLen
    · rw [if_pos h0] at hl
      exact Option.noConfusion hl
    · rw [if_neg h0] at hl
      by_cases h3 : (sortTrainsByAscending
          (candidateTrains (readDataFromJSON source) depID arrID) crit).length <
            numOfReturnTrains
      · rw [if_pos h3] at hl
        have h4 := Option.some_injective _ hl
        have h5 := congrArg List.length h4
        rw [length_sortTrainsByAscending] at h5
        simp only [List.length_nil] at h5
        rw [minLen] at h0
        omega
      · rw [if_neg h3] at hl
        have h4 := Option.some_injective _ hl
        have h5 := congrArg List.length h4
        rw [List.length_take] at h5
        simp only [List.length_nil] at h5
        rw [numOfReturnTrains] at h3 h5
        omega

/-! Concrete sample data for the witnesses. -/

def sampleA : Train := ⟨1141, 1902, 1929, 2, 44100, 60480⟩

def sampleB : Train := ⟨1177, 1902, 1929, 1, 37500, 59760⟩

def sampleC : Train := ⟨99, 1902, 5, 1, 2, 3⟩

def sampleData : List Train := [sampleA, sampleB, sampleC]

/-- Witness for C1 at concrete inputs: empty texts hit the departure check
first; an unrecognized criteria is reported once both stations are valid. -/
theorem findTrains_validation_order_witness :
    FindTrains (some sampleData) "" "" "price" =
      (none, some FindError.emptyDepStation) ∧
    FindTrains (some sampleData) "1902" "1929" "awef" =
      (none, some FindError.unsupportedCriteria) := by
  constructor
  · exact (findTrains_validation_order (some sampleData) "" "" "price").1 rfl
  · exact (findTrains_validation_order (some sampleData) "1902" "1929" "awef").2.2.2.2
      (by decide) (by decide) (by decide) (by decide) (by decide)

/-- Witness for C3 at a concrete valid input with two matching records. -/
theorem findTrains_result_sorted_witness :
    ("price" = priceCriteria →
      List.Pairwise (fun a b => a.price ≤ b.price) [sampleB, sampleA]) ∧
    ("price" = departureTimeCriteria →
      List.Pairwise (fun a b => a.departureTime ≤ b.departureTime)
        [sampleB, sampleA]) ∧
    ("price" = arrivalTimeCriteria →
      List.Pairwise (fun a b => a.arrivalTime ≤ b.arrivalTime)
        [sampleB, sampleA]) :=
  findTrains_result_sorted (some sampleData) "1902" "1929" "price" 1902 1929
    [sampleB, sampleA] (by decide) (by decide) (by decide) (by decide)
    (by decide) (by decide)

/-- Witness for C4 at a concrete valid input. -/
theorem findTrains_sort_stable_witness :
    ("price" = priceCriteria → ∀ k : ℚ,
      List.filter (fun t => decide (t.price = k)) [sampleB, sampleA] <+
        List.filter (fun t => decide (t.price = k))
          (readDataFromJSON (some sampleData))) ∧
    ("price" = departureTimeCriteria → ∀ k : ℕ,
      List.filter (fun t => decide (t.departureTime = k)) [sampleB, sampleA] <+
        List.filter (fun t => decide (t.departureTime = k))
          (readDataFromJSON (some sampleData))) ∧
    ("price" = arrivalTimeCriteria → ∀ k : ℕ,
      List.filter (fun t => decide (t.arrivalTime = k)) [sampleB, sampleA] <+
        List.filter (fun t => decide (t.arrivalTime = k))
          (readDataFromJSON (some sampleData))) :=
  findTrains_sort_stable (some sampleData) "1902" "1929" "price" 1902 1929
    [sampleB, sampleA] (by decide) (by decide) (by decide) (by decide)
    (by decide) (by decide)

/-- Witness for C5 at a concrete valid input. -/
theorem findTrains_result_length_witness :
    ((FindTrains (some sampleData) "1902" "1929" "price").1.getD []).length =
      min numOfReturnTrains
        (candidateTrains (readDataFromJSON (some sampleData)) 1902 1929).length ∧
    (numOfReturnTrains ≤
        (candidateTrains (readDataFromJSON (some sampleData)) 1902 1929).length →
      (FindTrains (some sampleData) "1902" "1929" "price").1 =
        some ((sortTrainsByAscending
          (candidateTrains (readDataFromJSON (some sampleData)) 1902 1929)
            "price").take numOfReturnTrains)) :=
  findTrains_result_length (some sampleData) "1902" "1929" "price" 1902 1929
    (by decide) (by decide) (by decide) (by decide) (by decide)

/-- Witness for C6 at a concrete valid input with zero matches. -/
theorem findTrains_zero_matches_no_error_witness :
    (FindTrains (some sampleData) "7" "1929" "price").2 = none ∧
    (candidateTrains (readDataFromJSON (some sampleData)) 7 1929 = [] →
      FindTrains (some sampleData) "7" "1929" "price" = (none, none)) :=
  findTrains_zero_matches_no_error (some sampleData) "7" "1929" "price" 7 1929
    (by decide) (by decide) (by decide) (by decide) (by decide)

/-- Witness for C7 at a concrete valid input. -/
theorem findTrains_load_failure_witness :
    FindTrains none "1902" "1929" "price" =
      FindTrains (some []) "1902" "1929" "price" ∧
    FindTrains none "1902" "1929" "price" = (none, none) :=
  findTrains_load_failure "1902" "1929" "price" 1902 1929
    (by decide) (by decide) (by decide) (by decide) (by decide)

/-- Witness for C9 at a concrete input. -/
theorem findTrains_deterministic_witness :
    FindTrains (some sampleData) "1902" "1929" "price" =
      FindTrains (some sampleData) "1902" "1929" "price" :=
  findTrains_deterministic (some sampleData) (some sampleData) "1902" "1902"
    "1929" "1929" "price" "price" rfl rfl rfl rfl

/-- Witness for C10 at a concrete valid input with zero matches. -/
theorem findTrains_nil_vs_empty_witness :
    (candidateTrains (readDataFromJSON (some sampleData)) 7 1929 = [] →
      (FindTrains (some sampleData) "7" "1929" "price").1 = none) ∧
    (∀ l : List Train,
      (FindTrains (some sampleData) "7" "1929" "price").1 = some l → l ≠ []) :=
  findTrains_nil_vs_empty (some sampleData) "7" "1929" "price" 7 1929
    (by decide) (by decide) (by decide) (by decide) (by decide)

end TrainFinder
